import Mathlib

/-!
Verification of the EPA FLIGHT mirror API (`lambda_api/lambda_function.py`)
against its natural-language specification.

The Python module is shallowly embedded: each handler's query construction
and result shaping is translated into pure Lean functions over lists of
typed rows (the parquet tables), SQL `DOUBLE` sums are modelled with `ℚ`,
and Python's `round` (half-to-even) is modelled exactly.  Stateful parts
(the `/tmp` + `file_cache` read-through cache) are modelled with explicit
state passing, and the (absent) concurrency control of the cache with a
small-step interleaving semantics.
-/

namespace Flight

/-! ### Snapshot cache: `get_local_parquet` (lambda_function.py lines 35-55)

State of one process: the module-global `file_cache` dict, the set of files
present under `/tmp`, and a count of `s3_client.download_file` calls.  The
remote fetch outcome is a boolean parameter (`true` = download succeeds and
materializes the file; `false` = boto3 raises). -/

/-- `S3_PREFIX/ghg.{table_name}.parquet` (line 37). -/
def s3_key (table_name : String) : String :=
  "epa_ghg_tables_parquet/ghg." ++ table_name ++ ".parquet"

/-- `/tmp/ghg.{table_name}.parquet` (line 38). -/
def local_path (table_name : String) : String :=
  "/tmp/ghg." ++ table_name ++ ".parquet"

/-- Association-list lookup, modelling Python `dict` access keyed by table name. -/
def assocFind (k : String) : List (String × String) → Option String
  | [] => none
  | (k', v) :: rest => if k' = k then some v else assocFind k rest

/-- Process state visible to `get_local_parquet`: the `file_cache` dict, the
set of paths present in `/tmp`, and how many S3 downloads have been issued. -/
structure CState where
  file_cache : List (String × String)
  files : List String
  fetches : Nat
deriving DecidableEq

/-- Embedding of `get_local_parquet` (lines 35-55).  `ok` is the outcome of
`s3_client.download_file` for this call: on success the file appears at
`local_path` and the mapping is recorded; on failure the exception is
re-raised (`Except.error`) and neither the mapping nor the file is recorded. -/
def get_local_parquet (ok : Bool) (st : CState) (table_name : String) :
    Except String String × CState :=
  match assocFind table_name st.file_cache with
  | some p => (.ok p, st)
  | none =>
    if local_path table_name ∈ st.files then
      (.ok (local_path table_name),
       { st with file_cache := (table_name, local_path table_name) :: st.file_cache })
    else
      let st' : CState := { st with fetches := st.fetches + 1 }
      if ok then
        (.ok (local_path table_name),
         { st' with
            file_cache := (table_name, local_path table_name) :: st'.file_cache,
            files := local_path table_name :: st'.files })
      else
        (.error ("Failed to download " ++ s3_key table_name), st')

/-- A fresh (cold) process: empty cache, empty `/tmp`, no downloads yet. -/
def initCState : CState := ⟨[], [], 0⟩

/-! ### Concurrency model for the cache (claim C6)

`get_local_parquet` is split into its atomic steps as executed by one
caller; a scheduler interleaves two callers over the shared `CState`.  The
remote fetch is assumed to succeed (`ok = true`). -/

/-- Program counter of one caller inside `get_local_parquet`. -/
inductive FetchPC where
  /-- about to test `table_name in file_cache` (line 41) -/
  | start
  /-- cache miss; about to test `os.path.exists(local_path)` (line 45) -/
  | checkedCache
  /-- file miss; about to call `s3_client.download_file` (line 51) -/
  | checkedFile
  /-- returned with result `r` -/
  | done (r : Except String String)

/-- One atomic step of a caller of `get_local_parquet table_name` (successful
fetch scenario) over the shared state. -/
def stepPC (table_name : String) (st : CState) : FetchPC → CState × FetchPC
  | .start =>
    match assocFind table_name st.file_cache with
    | some p => (st, .done (.ok p))
    | none => (st, .checkedCache)
  | .checkedCache =>
    if local_path table_name ∈ st.files then
      ({ st with file_cache := (table_name, local_path table_name) :: st.file_cache },
       .done (.ok (local_path table_name)))
    else
      (st, .checkedFile)
  | .checkedFile =>
    ({ file_cache := (table_name, local_path table_name) :: st.file_cache,
       files := local_path table_name :: st.files,
       fetches := st.fetches + 1 },
     .done (.ok (local_path table_name)))
  | .done r => (st, .done r)

/-- Two concurrent callers of `get_local_parquet` for the same table name:
shared state plus each caller's program counter. -/
structure Sys where
  st : CState
  pc0 : FetchPC
  pc1 : FetchPC

/-- Run one scheduled step: `false` advances caller 0, `true` caller 1. -/
def schedStep (table_name : String) (s : Sys) (who : Bool) : Sys :=
  if who then
    let (st', pc') := stepPC table_name s.st s.pc1
    { s with st := st', pc1 := pc' }
  else
    let (st', pc') := stepPC table_name s.st s.pc0
    { s with st := st', pc0 := pc' }

/-- Run a whole schedule (list of scheduling choices). -/
def runSched (table_name : String) (sched : List Bool) (s : Sys) : Sys :=
  sched.foldl (schedStep table_name) s

/-- Both callers start at the head of `get_local_parquet` in a cold process. -/
def initSys : Sys := ⟨initCState, .start, .start⟩

/-- `n` sequential calls of `get_local_parquet table_name` (all fetches
succeeding), collecting each call's result. -/
def seqCalls (table_name : String) : Nat → CState → List (Except String String) × CState
  | 0, st => ([], st)
  | n + 1, st =>
    let (r, st') := get_local_parquet true st table_name
    let (rs, st'') := seqCalls table_name n st'
    (r :: rs, st'')

/-! ### Numeric shaping (Response Shaper)

SQL `CAST(... AS DOUBLE)` sums are modelled with `ℚ`; Python's built-in
`round` rounds to the nearest integer with ties going to the even integer. -/

/-- Python's `round(q)`: nearest integer, ties to even (banker's rounding). -/
def pyRound (q : ℚ) : ℤ :=
  if q - ⌊q⌋ < 1/2 then ⌊q⌋
  else if 1/2 < q - ⌊q⌋ then ⌊q⌋ + 1
  else if ⌊q⌋ % 2 = 0 then ⌊q⌋ else ⌊q⌋ + 1

/-- `round(x / MMT_DIVISOR)` with `MMT_DIVISOR = 1_000_000`
(e.g. lambda_function.py lines 238, 246-248): metric tons → MMT. -/
def toMMT (x : ℚ) : ℤ := pyRound (x / 1000000)

theorem pyRound_ge_floor (q : ℚ) : ⌊q⌋ ≤ pyRound q := by
  unfold pyRound; split_ifs <;> omega

theorem pyRound_le_floor_add_one (q : ℚ) : pyRound q ≤ ⌊q⌋ + 1 := by
  unfold pyRound; split_ifs <;> omega

theorem pyRound_mono {a b : ℚ} (h : b ≤ a) : pyRound b ≤ pyRound a := by
  rcases lt_or_eq_of_le (Int.floor_le_floor h) with hf | hf
  · calc pyRound b ≤ ⌊b⌋ + 1 := pyRound_le_floor_add_one b
      _ ≤ ⌊a⌋ := by omega
      _ ≤ pyRound a := pyRound_ge_floor a
  · unfold pyRound
    rw [hf]
    have hba : b - (⌊a⌋ : ℚ) ≤ a - (⌊a⌋ : ℚ) := by linarith
    split_ifs <;> first | omega | linarith

/-! ### Data model

Rows of the four parquet tables used by the handlers.  The parquet `year`
column holds four-digit decimal year strings; since SQL string equality and
lexicographic order coincide with numeric equality and order on such
strings, `year` is modelled as `Int`.  `CAST(... AS DOUBLE)` emission
values are modelled as `ℚ`. -/

/-- A row of `ghg.RLPS_GHG_EMITTER_SECTOR` (the sector fact table). -/
structure SectorRow where
  facility_id : String
  year : Int
  sector_name : String
  sector_type : String
  gas_name : String
  co2e_emission : ℚ
deriving DecidableEq

/-- A row of `ghg.RLPS_GHG_EMITTER_FACILITIES`. -/
structure FacilityRow where
  facility_id : String
  facility_name : String
  year : Int
  state : String
  city : String
  county : String
  zip : String
  address1 : String
  address2 : String
  latitude : Option String
  longitude : Option String
  parent_company : String
deriving DecidableEq

/-- A row of `ghg.PUB_DIM_SECTOR` (sector dimension), with
`CAST(sector_id AS INTEGER)` applied. -/
structure DimRow where
  sector_name : String
  sector_id : Int
deriving DecidableEq

/-- A row of `ghg.RLPS_FAC_YEAR_AGG` (per-facility-year aggregate). -/
structure AggRow where
  pgm_sys_id : String
  year : Int
  total_emission : ℚ
deriving DecidableEq

/-- Python's `if state and state != 'US'` guard: the filter is active for
any non-empty state other than the sentinel `US`. -/
def stateActive (state : String) : Bool :=
  state ≠ "" && state ≠ "US"

/-! ### Query Compiler: the state clause of each compiled query (claim C2)

Each handler conditionally appends a facility join and/or a
`state = '<value>'` equality predicate to its query text.  A `StateClause`
records what the handler added. -/

/-- What a handler's query gains from the `state` request parameter:
whether a facility-table join is added, and the value of the added
`state = '<value>'` equality predicate (if any). -/
structure StateClause where
  facilityJoin : Bool
  stateFilter : Option String
deriving DecidableEq

/-- Lines 211-215 (`handle_sectors_total_emissions`); the identical block
appears at 440-444 (`handle_sector_trend`), 510-514 (`handle_bar_sector`)
and 598-602 (`handle_pie_sectors_emissions`): an `INNER JOIN` of the
facility table on `(facility_id, year)` plus `AND f.state = '<state>'`. -/
def sectorFactStateClause (state : String) : StateClause :=
  if stateActive state then ⟨true, some state⟩ else ⟨false, none⟩

/-- Lines 130-131 (`handle_facilities_map_markers`): the base table is the
facility table itself, so only `AND state = '<state>'` is appended. -/
def mapMarkersStateClause (state : String) : StateClause :=
  if stateActive state then ⟨false, some state⟩ else ⟨false, none⟩

/-- Lines 175-176 (`handle_map_overlay`): the facility table is already in
the fixed FROM clause, so only `AND f.state = '<state>'` is appended. -/
def mapOverlayStateClause (state : String) : StateClause :=
  if stateActive state then ⟨false, some state⟩ else ⟨false, none⟩

/-- Lines 715-716 and 748-749 (`handle_export`, both modes): only
`AND f.state = '<state>'` is appended. -/
def exportStateClause (state : String) : StateClause :=
  if stateActive state then ⟨false, some state⟩ else ⟨false, none⟩

/-! ### Shared relational semantics -/

/-- The multiset effect of the optional
`INNER JOIN facilities f ON e.facility_id = f.facility_id AND e.year = f.year`
with `AND f.state = '<state>'`: each sector row occurs once per matching
facility row; with the filter inactive the rows pass through unchanged. -/
def stateJoined (secs : List SectorRow) (facs : List FacilityRow)
    (state : String) : List SectorRow :=
  if stateActive state then
    secs.flatMap (fun e =>
      (facs.filter (fun f =>
        f.facility_id = e.facility_id ∧ f.year = e.year ∧ f.state = state)).map
        (fun _ => e))
  else secs

/-- One output row of the shared
`SELECT e.sector_name, SUM(...), COUNT(DISTINCT e.facility_id), MAX(CAST(d.sector_id AS INTEGER)) ... GROUP BY e.sector_name`
query shape. -/
structure SectorAgg where
  sector_name : String
  total_emissions : ℚ
  facility_count : Nat
  sector_id : Option Int
deriving DecidableEq

/-- `MAX(CAST(d.sector_id AS INTEGER))` over the dimension rows joined by
sector name (`LEFT JOIN ... ON e.sector_name = d.sector_name`); `none`
models SQL `NULL` for an unmatched name. -/
def maxDimId (dims : List DimRow) (k : String) : Option Int :=
  ((dims.filter (fun d => d.sector_name = k)).map (·.sector_id)).max?

/-- `GROUP BY e.sector_name` with `SUM(CAST(e.co2e_emission AS DOUBLE))`,
`COUNT(DISTINCT e.facility_id)` and the dimension lookup. -/
def aggBySector (rows : List SectorRow) (dims : List DimRow) : List SectorAgg :=
  ((rows.map (·.sector_name)).dedup).map (fun k =>
    let g := rows.filter (fun e => e.sector_name = k)
    ⟨k, (g.map (·.co2e_emission)).sum,
     ((g.map (·.facility_id)).dedup).length, maxDimId dims k⟩)

/-- `ORDER BY total_emissions DESC`. -/
def sortByTotalDesc (l : List SectorAgg) : List SectorAgg :=
  l.insertionSort (fun a b => b.total_emissions ≤ a.total_emissions)

/-! ### POST /api/sectors/total/emissions (lines 196-264) -/

/-- The result rows of `handle_sectors_total_emissions`'s query: year and
sector-type filters, the fixed `gas_name != 'Biogenic CO2'` exclusion, the
optional state join, grouping by sector name, ordered by total descending. -/
def sectorsTotalRows (secs : List SectorRow) (facs : List FacilityRow)
    (dims : List DimRow) (reporting_year : Int) (state : String) : List SectorAgg :=
  let base := secs.filter (fun e =>
    e.year = reporting_year ∧ e.sector_type = "E" ∧ e.gas_name ≠ "Biogenic CO2")
  sortByTotalDesc (aggBySector (stateJoined base facs state) dims)

/-- One entry of `sectorEmissionDetails` (lines 243-252), after MMT
conversion. -/
structure SectorDetail where
  sectorId : Option Int
  sectorName : String
  ghgEmission : Int
  numberOfFacilitiesReported : Nat
deriving DecidableEq

/-- The `result` payload of `handle_sectors_total_emissions`
(lines 254-264). -/
structure SectorsTotalResp where
  sectorEmissionDetails : List SectorDetail
  totalReportedEmission : Int
  totalNumberOfFacilities : Nat
  reportingYear : Int
deriving DecidableEq

/-- `handle_sectors_total_emissions` (lines 196-264): per-sector rows in
MMT, grand totals in MMT, facility counts summed over sectors. -/
def handle_sectors_total_emissions (secs : List SectorRow)
    (facs : List FacilityRow) (dims : List DimRow) (reporting_year : Int)
    (state : String) : SectorsTotalResp :=
  let rows := sectorsTotalRows secs facs dims reporting_year state
  { sectorEmissionDetails := rows.map (fun r =>
      ⟨r.sector_id, r.sector_name, toMMT r.total_emissions, r.facility_count⟩)
    totalReportedEmission := toMMT ((rows.map (·.total_emissions)).sum)
    totalNumberOfFacilities := (rows.map (·.facility_count)).sum
    reportingYear := reporting_year }

/-! ### POST /api/list/sectors (lines 270-332) -/

/-- The result rows of `handle_list_sectors`'s query (lines 283-297): the
same aggregation as sector totals but with no state parameter. -/
def listSectorsRows (secs : List SectorRow) (dims : List DimRow)
    (reporting_year : Int) : List SectorAgg :=
  let base := secs.filter (fun e =>
    e.year = reporting_year ∧ e.sector_type = "E" ∧ e.gas_name ≠ "Biogenic CO2")
  sortByTotalDesc (aggBySector base dims)

/-- The shaped table rows of `handle_list_sectors` (lines 311-316):
`(sector, facilities, totalReportedEmissions in MMT)`; the thousands
separators of the Python f-strings are not modelled. -/
def handle_list_sectors (secs : List SectorRow) (dims : List DimRow)
    (reporting_year : Int) : List (String × Nat × Int) :=
  (listSectorsRows secs dims reporting_year).map (fun r =>
    (r.sector_name, r.facility_count, toMMT r.total_emissions))

/-! ### POST /api/sector/trend/{sectorId}/{level} (lines 406-493) -/

/-- Lines 421-437: a non-`'0'` `sector_id` path parameter is parsed as an
integer and resolved to a sector name through the dimension table
(`LIMIT 1`); parse or lookup failure falls back to `none` (all sectors). -/
def resolveSectorName (dims : List DimRow) (sector_id : String) : Option String :=
  if sector_id ≠ "" ∧ sector_id ≠ "0" then
    match sector_id.toInt? with
    | some n => ((dims.filter (fun d => d.sector_id = n)).map (·.sector_name)).head?
    | none => none
  else none

/-- The trend series of `handle_sector_trend` (lines 451-472): all years,
sector-type `'E'`, Biogenic CO2 excluded, optional state join and resolved
sector-name filter, grouped by year ascending, values in MMT. -/
def sectorTrendSeries (secs : List SectorRow) (facs : List FacilityRow)
    (dims : List DimRow) (sector_id : String) (state : String) :
    List (Int × Int) :=
  let sname := resolveSectorName dims sector_id
  let base := secs.filter (fun e =>
    e.sector_type = "E" ∧ e.gas_name ≠ "Biogenic CO2")
  let base := match sname with
    | some nm => base.filter (fun e => e.sector_name = nm)
    | none => base
  let joined := stateJoined base facs state
  (((joined.map (·.year)).dedup).insertionSort (· ≤ ·)).map (fun y =>
    (y, toMMT (((joined.filter (fun e => e.year = y)).map (·.co2e_emission)).sum)))

/-! ### POST /api/bar/sector (lines 495-580) -/

/-- `handle_bar_sector`'s chart payload (lines 517-562): categories are the
sector names sorted by total descending, the single series holds the MMT
values in the same order. -/
def handle_bar_sector (secs : List SectorRow) (facs : List FacilityRow)
    (dims : List DimRow) (reporting_year : Int) (state : String) :
    List String × List Int :=
  let base := secs.filter (fun e =>
    e.year = reporting_year ∧ e.sector_type = "E" ∧ e.gas_name ≠ "Biogenic CO2")
  let rows := sortByTotalDesc (aggBySector (stateJoined base facs state) dims)
  (rows.map (·.sector_name), rows.map (fun r => toMMT r.total_emissions))

/-! ### POST /api/pie/sectors/emissions (lines 582-670) -/

/-- `handle_pie_sectors_emissions`'s slice data (lines 604-652): as the bar
chart, plus an extra sector-name filter when `level` is `'2'`/`'3'` and a
non-empty `sector1` is supplied; each slice is `(name, y in MMT, id)`. -/
def handle_pie_sectors_emissions (secs : List SectorRow)
    (facs : List FacilityRow) (dims : List DimRow) (reporting_year : Int)
    (state : String) (level : Option String) (sector1 : String) :
    List (String × Int × Option Int) :=
  let base := secs.filter (fun e =>
    e.year = reporting_year ∧ e.sector_type = "E" ∧ e.gas_name ≠ "Biogenic CO2")
  let base := if (level = some "2" ∨ level = some "3") ∧ sector1 ≠ "" then
      base.filter (fun e => e.sector_name = sector1)
    else base
  let rows := sortByTotalDesc (aggBySector (stateJoined base facs state) dims)
  rows.map (fun r => (r.sector_name, toMMT r.total_emissions, r.sector_id))

/-! ### POST /api/map/overlay (lines 142-194) -/

/-- `latitude IS NOT NULL AND latitude != ''` (and likewise for
longitude). -/
def coordOk : Option String → Bool
  | none => false
  | some s => s ≠ ""

/-- The grouped rows of `handle_map_overlay`'s query (lines 157-178): the
`WHERE` conditions on `s.*` make the `LEFT JOIN` behave as an inner join;
grouping is by `(f.facility_id, f.latitude, f.longitude)`; the summed
emissions are shaped with `round(...)` (line 187). -/
def mapOverlayRows (facs : List FacilityRow) (secs : List SectorRow)
    (reporting_year : Int) (state : String) (data_source : String) :
    List ((String × Option String × Option String) × Int) :=
  let pairs := facs.flatMap (fun f =>
    (secs.filter (fun s =>
      s.facility_id = f.facility_id ∧ s.year = f.year ∧
      s.sector_type = data_source ∧ s.gas_name ≠ "Biogenic CO2")).map
      (fun s => (f, s)))
  let pairs := pairs.filter (fun p =>
    decide (p.1.year = reporting_year) && coordOk p.1.latitude &&
    coordOk p.1.longitude &&
    (!stateActive state || decide (p.1.state = state)))
  ((pairs.map (fun p => (p.1.facility_id, p.1.latitude, p.1.longitude))).dedup).map
    (fun k => (k, pyRound (((pairs.filter (fun p =>
      (p.1.facility_id, p.1.latitude, p.1.longitude) = k)).map
      (fun p => p.2.co2e_emission)).sum)))

/-! ### POST /api/export (lines 672-826) -/

/-- The export queries' `LEFT JOIN` of the sector table (lines 707-711 /
740-744): the `ON` clause carries the `(facility_id, year)` keys, the
`sector_type` filter and the Biogenic CO2 exclusion, so a facility row with
no matching sector row survives with a `none` partner. -/
def exportPairs (facs : List FacilityRow) (secs : List SectorRow)
    (data_source : String) : List (FacilityRow × Option SectorRow) :=
  facs.flatMap (fun f =>
    match secs.filter (fun s =>
      s.facility_id = f.facility_id ∧ s.year = f.year ∧
      s.sector_type = data_source ∧ s.gas_name ≠ "Biogenic CO2") with
    | [] => [(f, none)]
    | ms => ms.map (fun s => (f, some s)))

/-- `GROUP BY` on all selected facility columns with
`COALESCE(SUM(CAST(s.co2e_emission AS DOUBLE)), 0)`: every distinct
facility tuple with its summed emissions (unmatched rows contribute 0). -/
def exportGroups (pairs : List (FacilityRow × Option SectorRow)) :
    List (FacilityRow × ℚ) :=
  ((pairs.map (·.1)).dedup).map (fun f =>
    (f, ((pairs.filter (fun p => p.1 = f)).map
      (fun p => (p.2.map (·.co2e_emission)).getD 0)).sum))

/-- `ORDER BY f.year DESC, total_emissions DESC` (line 722). -/
def exportOrder (a b : FacilityRow × ℚ) : Prop :=
  b.1.year < a.1.year ∨ (a.1.year = b.1.year ∧ b.2 ≤ a.2)

instance : DecidableRel exportOrder := fun a b => by
  unfold exportOrder; infer_instance

instance : IsTotal (FacilityRow × ℚ) exportOrder where
  total a b := by
    unfold exportOrder
    rcases lt_trichotomy a.1.year b.1.year with h | h | h
    · right; left; exact h
    · rcases le_total a.2 b.2 with h2 | h2
      · right; right; exact ⟨h.symm, h2⟩
      · left; right; exact ⟨h, h2⟩
    · left; left; exact h

instance : IsTrans (FacilityRow × ℚ) exportOrder where
  trans a b c hab hbc := by
    unfold exportOrder at *
    rcases hab with h1 | ⟨h1, h1'⟩ <;> rcases hbc with h2 | ⟨h2, h2'⟩
    · left; omega
    · left; omega
    · left; omega
    · right; exact ⟨h1.trans h2, h2'.trans h1'⟩

/-- The all-years export rows (lines 690-724): optional state filter on the
facility table, left join, grouping, `HAVING total_emissions > 0`,
`ORDER BY f.year DESC, total_emissions DESC`, `LIMIT 25000`. -/
def exportAllYearsRows (facs : List FacilityRow) (secs : List SectorRow)
    (state : String) (data_source : String) : List (FacilityRow × ℚ) :=
  let fbase := if stateActive state then facs.filter (fun f => f.state = state)
    else facs
  let groups := (exportGroups (exportPairs fbase secs data_source)).filter
    (fun g => 0 < g.2)
  (groups.insertionSort exportOrder).take 25000

/-- The single-year export rows (lines 727-755): `WHERE f.year = <year>`,
optional state filter, left join, grouping, `ORDER BY total_emissions DESC`
— no `HAVING` clause and no row limit. -/
def exportSingleYearRows (facs : List FacilityRow) (secs : List SectorRow)
    (reporting_year : Int) (state : String) (data_source : String) :
    List (FacilityRow × ℚ) :=
  let fbase := facs.filter (fun f => f.year = reporting_year)
  let fbase := if stateActive state then fbase.filter (fun f => f.state = state)
    else fbase
  (exportGroups (exportPairs fbase secs data_source)).insertionSort
    (fun a b => b.2 ≤ a.2)

/-- The emissions column written to the CSV (lines 792 / 806):
`round(float(total)) if total else 0`, which equals `pyRound` of the sum
(both branches give 0 at 0). -/
def exportCsvEmission (total : ℚ) : Int := pyRound total

/-! ### POST /api/list/facilities (lines 334-404) -/

/-- The year-filtered, emission-sorted facility set of
`handle_list_facilities`'s query (lines 351-365, before LIMIT/OFFSET):
facilities left-joined to `RLPS_FAC_YEAR_AGG` on
`(facility_id = pgm_sys_id, year)`, emission `COALESCE`d to 0, filtered to
the reporting year, ordered by emission descending. -/
def listFacilitiesSorted (facs : List FacilityRow) (aggs : List AggRow)
    (reporting_year : Int) : List (FacilityRow × ℚ) :=
  let pairs := facs.flatMap (fun f =>
    match aggs.filter (fun a =>
      a.pgm_sys_id = f.facility_id ∧ a.year = f.year) with
    | [] => [(f, (0 : ℚ))]
    | ms => ms.map (fun a => (f, a.total_emission)))
  let pairs := pairs.filter (fun p => p.1.year = reporting_year)
  pairs.insertionSort (fun a b => b.2 ≤ a.2)

/-- Line 339: `int(body.get('pageNumber', 1)) if body.get('pageNumber')
else 1` — an absent (or Python-falsy `0`) page number defaults to 1. -/
def pageVal : Option Int → Int
  | none => 1
  | some n => if n = 0 then 1 else n

/-- Lines 340-341: `page_size = 100`. -/
def listFacilitiesPageSize : Nat := 100

/-- Line 341: `offset = (page - 1) * page_size`. -/
def listFacilitiesOffset (page : Option Int) : Int :=
  (pageVal page - 1) * 100

/-- The response of `handle_list_facilities`: always a success envelope
(status 200), rows taken with `LIMIT 100 OFFSET offset` (line 366). -/
structure ListFacilitiesResp where
  status : Nat
  rows : List (FacilityRow × ℚ)
deriving DecidableEq

/-- `handle_list_facilities` (lines 334-404).  The `.toNat` clamp only
matters for a negative page number (where the SQL engine would instead
reject the negative `OFFSET`); a page number of `0` is Python-falsy and is
already defaulted to 1 by `pageVal`, so every non-negative page is modelled
exactly. -/
def handle_list_facilities (facs : List FacilityRow) (aggs : List AggRow)
    (reporting_year : Int) (page : Option Int) : ListFacilitiesResp :=
  { status := 200
    rows := ((listFacilitiesSorted facs aggs reporting_year).drop
      (listFacilitiesOffset page).toNat).take listFacilitiesPageSize }

/-! ### GET /api/facility/hover/{year} (lines 997-1103) -/

/-- `ORDER BY year DESC LIMIT 1` over a row list: a row whose year is
maximal (the fold keeps the earlier row on ties). -/
def maxByYear : List FacilityRow → Option FacilityRow
  | [] => none
  | f :: fs => some (fs.foldl (fun best g => if best.year < g.year then g else best) f)

/-- Lines 1014-1055: the facility descriptor row — first the exact
`(facility_id, year)` match (`LIMIT 1`), then the fallback over all years
ordered by year descending. -/
def hoverFacility (facs : List FacilityRow) (fid : String) (year : Int) :
    Option FacilityRow :=
  match (facs.filter (fun f => f.facility_id = fid ∧ f.year = year)).head? with
  | some f => some f
  | none => maxByYear (facs.filter (fun f => f.facility_id = fid))

/-- Lines 1061-1072 and 1088-1091: the per-gas breakdown —
`SELECT gas_name, SUM(CAST(co2e_emission AS DOUBLE)) ... WHERE facility_id
= <id> AND year = <year> GROUP BY gas_name ORDER BY total_emission DESC`,
each quantity then rounded (`round(float(row[1])) if row[1] else 0`).
Note: this query has no `gas_name != 'Biogenic CO2'` condition. -/
def gasBreakdown (secs : List SectorRow) (fid : String) (year : Int) :
    List (String × Int) :=
  let base := secs.filter (fun s => s.facility_id = fid ∧ s.year = year)
  let grouped := ((base.map (·.gas_name)).dedup).map (fun g =>
    (g, ((base.filter (fun s => s.gas_name = g)).map (·.co2e_emission)).sum))
  (grouped.insertionSort (fun a b => b.2 ≤ a.2)).map (fun g => (g.1, pyRound g.2))

/-- The three outcomes of `handle_facility_hover`. -/
inductive HoverResp where
  /-- 400, `Missing facility id` (line 1005) -/
  | badRequest
  /-- 404, `Facility not found` (line 1058) -/
  | notFound
  /-- 200 with the facility descriptor and the per-gas breakdown -/
  | ok (facility : FacilityRow) (emissions : List (String × Int))

/-- `handle_facility_hover` (lines 997-1103); a missing or empty `id` query
parameter is Python-falsy and yields the 400 response. -/
def handle_facility_hover (facs : List FacilityRow) (secs : List SectorRow)
    (year : Int) (facility_id : Option String) : HoverResp :=
  match facility_id with
  | none => .badRequest
  | some fid =>
    if fid = "" then .badRequest
    else
      match hoverFacility facs fid year with
      | none => .notFound
      | some f => .ok f (gasBreakdown secs fid year)

/-! ### GET /api/data/download/{filename} (lines 964-995) -/

/-- The observable outcome of `handle_data_download`: status, the message
list of the envelope, the presigned URL if issued, and how many remote
(S3 `head_object` / presigned-URL) calls were made. -/
structure DownloadResp where
  status : Nat
  messages : List (String × Nat)
  url : Option String
  headCalls : Nat
  presignCalls : Nat
deriving DecidableEq

/-- `handle_data_download` (lines 964-995).  The validation at line 968
(`not filename.endswith('.csv') or '/' in filename or '..' in filename`)
runs before any S3 call; `remoteExists` models the `head_object` outcome,
and a presigned URL for `epa_ghg_tables_csvs/<filename>` is issued only
after a successful head call. -/
def handle_data_download (remoteExists : Bool) (filename : String) :
    DownloadResp :=
  if !(filename.endsWith ".csv") || '/' ∈ filename.data ||
      decide ("..".data <:+: filename.data) then
    ⟨400, [("Invalid filename", 400)], none, 0, 0⟩
  else if remoteExists then
    ⟨200, [], some ("presigned:epa_ghg_tables_csvs/" ++ filename), 1, 1⟩
  else
    ⟨404, [("File not found", 404)], none, 1, 0⟩

/-! ## Claim theorems -/

/-- C8: the metric-tons-to-MMT conversion `toMMT(x) = round(x / 1,000,000)`
satisfies `toMMT 0 = 0` and is monotonic: `a > b → toMMT a ≥ toMMT b`. -/
theorem toMMT_zero_and_monotone :
    toMMT 0 = 0 ∧ ∀ a b : ℚ, b < a → toMMT b ≤ toMMT a := by
  constructor
  · show pyRound (0 / 1000000) = 0
    norm_num [pyRound]
  · intro a b h
    exact pyRound_mono (by linarith)

/-- Witness for C8 at `a = 2000000`, `b = 0`. -/
theorem toMMT_zero_and_monotone_witness :
    (0:ℚ) < 2000000 ∧ toMMT 0 ≤ toMMT 2000000 :=
  ⟨by norm_num, toMMT_zero_and_monotone.2 2000000 0 (by norm_num)⟩

/-- C7: the data-file-download handler rejects every filename that does not
end in `.csv`, contains `/`, or contains `..`, with a 400 response whose
single message has type 400, and performs no remote (head-object or
presigned-URL) call for such a filename. -/
theorem data_download_rejects_invalid (remoteExists : Bool) (filename : String)
    (h : filename.endsWith ".csv" = false ∨ '/' ∈ filename.data ∨
      "..".data <:+: filename.data) :
    handle_data_download remoteExists filename =
      ⟨400, [("Invalid filename", 400)], none, 0, 0⟩ := by
  unfold handle_data_download
  have hc : (!(filename.endsWith ".csv") || '/' ∈ filename.data ||
      decide ("..".data <:+: filename.data)) = true := by
    rcases h with h | h | h <;> simp [h]
  rw [if_pos hc]

/-- Witness for C7: the filename `"../secret.csv"` is rejected before any
remote lookup. -/
theorem data_download_rejects_invalid_witness :
    ("..".data <:+: "../secret.csv".data) ∧
    handle_data_download true "../secret.csv" =
      ⟨400, [("Invalid filename", 400)], none, 0, 0⟩ :=
  ⟨by decide,
   data_download_rejects_invalid true "../secret.csv" (Or.inr (Or.inr (by decide)))⟩

/-- C4: the all-years export result never holds more than 25,000 rows and
is ordered by year descending, then summed emissions descending; the cap is
a constant of the query, independent of every request parameter. -/
theorem exportAllYears_capped_and_sorted (facs : List FacilityRow)
    (secs : List SectorRow) (state data_source : String) :
    (exportAllYearsRows facs secs state data_source).length ≤ 25000 ∧
    (exportAllYearsRows facs secs state data_source).Pairwise exportOrder := by
  constructor
  · exact List.length_take_le _ _
  · exact List.Pairwise.sublist (List.take_sublist _ _)
      (List.sorted_insertionSort exportOrder _)

/-- C3: for the list-facilities operation the page size is 100 and the
offset is `(page − 1) * 100`; `pageNumber` defaults to 1 when absent; page
2 returns rows 100–199 of the year-filtered, emission-sorted set; a page
past the available rows yields an empty row list in a 200 response. -/
theorem list_facilities_pagination (facs : List FacilityRow)
    (aggs : List AggRow) (reporting_year : Int) :
    listFacilitiesPageSize = 100 ∧
    (∀ page : Option Int, listFacilitiesOffset page = (pageVal page - 1) * 100) ∧
    handle_list_facilities facs aggs reporting_year none =
      handle_list_facilities facs aggs reporting_year (some 1) ∧
    handle_list_facilities facs aggs reporting_year (some 2) =
      ⟨200, ((listFacilitiesSorted facs aggs reporting_year).drop 100).take 100⟩ ∧
    (∀ p : Int, 1 ≤ p →
      (listFacilitiesSorted facs aggs reporting_year).length ≤ ((p - 1) * 100).toNat →
      handle_list_facilities facs aggs reporting_year (some p) = ⟨200, []⟩) := by
  refine ⟨rfl, fun _ => rfl, rfl, rfl, ?_⟩
  intro p hp hlen
  have hpv : pageVal (some p) = p := by
    simp only [pageVal]
    rw [if_neg (by omega)]
  unfold handle_list_facilities
  have hoff : (listFacilitiesOffset (some p)).toNat = ((p - 1) * 100).toNat := by
    unfold listFacilitiesOffset
    rw [hpv]
  rw [hoff, List.drop_eq_nil_of_le hlen]
  rfl

/-- Witness for C3: an empty dataset with page 5 yields a 200 response with
no rows. -/
theorem list_facilities_pagination_witness :
    ((1:Int) ≤ 5 ∧
      (listFacilitiesSorted [] [] 2023).length ≤ (((5:Int) - 1) * 100).toNat) ∧
    handle_list_facilities [] [] 2023 (some 5) = ⟨200, []⟩ :=
  ⟨⟨by norm_num, by simp [listFacilitiesSorted]⟩,
   (list_facilities_pagination [] [] 2023).2.2.2.2 5 (by norm_num)
     (by simp [listFacilitiesSorted])⟩

/-- C5: with no mapping recorded and no warm file present, a successful
fetch records the mapping and every later call for the name returns the
recorded path with no further remote contact and no state change; a failed
fetch surfaces the error, records no mapping and creates no file, so a
later call retries the fetch (and succeeds if the retry succeeds). -/
theorem cache_acquire_success_failure (st : CState) (t : String)
    (hc : assocFind t st.file_cache = none)
    (hf : local_path t ∉ st.files) :
    (get_local_parquet true st t).1 = .ok (local_path t) ∧
    (get_local_parquet true st t).2.fetches = st.fetches + 1 ∧
    (∀ ok' : Bool,
      get_local_parquet ok' (get_local_parquet true st t).2 t =
        (.ok (local_path t), (get_local_parquet true st t).2)) ∧
    (get_local_parquet false st t).1 =
      .error ("Failed to download " ++ s3_key t) ∧
    (get_local_parquet false st t).2.file_cache = st.file_cache ∧
    (get_local_parquet false st t).2.files = st.files ∧
    (get_local_parquet true (get_local_parquet false st t).2 t).1 =
      .ok (local_path t) ∧
    (get_local_parquet true (get_local_parquet false st t).2 t).2.fetches =
      st.fetches + 2 := by
  have hsucc : get_local_parquet true st t =
      (.ok (local_path t),
       ⟨(t, local_path t) :: st.file_cache, local_path t :: st.files,
        st.fetches + 1⟩) := by
    unfold get_local_parquet
    rw [hc]
    simp [hf]
  have hfail : get_local_parquet false st t =
      (.error ("Failed to download " ++ s3_key t),
       ⟨st.file_cache, st.files, st.fetches + 1⟩) := by
    unfold get_local_parquet
    rw [hc]
    simp [hf]
  have hhit : ∀ ok' : Bool,
      get_local_parquet ok'
        (⟨(t, local_path t) :: st.file_cache, local_path t :: st.files,
          st.fetches + 1⟩ : CState) t =
      (.ok (local_path t),
       ⟨(t, local_path t) :: st.file_cache, local_path t :: st.files,
        st.fetches + 1⟩) := by
    intro ok'
    unfold get_local_parquet
    simp [assocFind]
  have hretry : get_local_parquet true
      (⟨st.file_cache, st.files, st.fetches + 1⟩ : CState) t =
      (.ok (local_path t),
       ⟨(t, local_path t) :: st.file_cache, local_path t :: st.files,
        st.fetches + 2⟩) := by
    unfold get_local_parquet
    rw [show (⟨st.file_cache, st.files, st.fetches + 1⟩ : CState).file_cache =
      st.file_cache from rfl, hc]
    simp [hf]
  rw [hsucc, hfail]
  exact ⟨rfl, rfl, hhit, rfl, rfl, rfl, by rw [hretry], by rw [hretry]⟩

/-- Witness for C5 in a cold process for the sector fact table. -/
theorem cache_acquire_success_failure_witness :
    (assocFind "RLPS_GHG_EMITTER_SECTOR" initCState.file_cache = none ∧
      local_path "RLPS_GHG_EMITTER_SECTOR" ∉ initCState.files) ∧
    (get_local_parquet true initCState "RLPS_GHG_EMITTER_SECTOR").1 =
      .ok (local_path "RLPS_GHG_EMITTER_SECTOR") ∧
    (get_local_parquet false initCState "RLPS_GHG_EMITTER_SECTOR").2.file_cache =
      initCState.file_cache :=
  ⟨⟨rfl, by simp [initCState]⟩,
   (cache_acquire_success_failure initCState "RLPS_GHG_EMITTER_SECTOR" rfl
     (by simp [initCState])).1,
   (cache_acquire_success_failure initCState "RLPS_GHG_EMITTER_SECTOR" rfl
     (by simp [initCState])).2.2.2.2.1⟩

/-- C6 counterexample: the code has no per-table-name lock, so two
concurrent callers of `get_local_parquet` for the same uncached name can
both pass the cache test and the file test before either downloads; under
that interleaving the process performs two remote fetches, not one. -/
theorem cache_concurrent_double_fetch :
    (runSched "RLPS_GHG_EMITTER_SECTOR"
      [false, true, false, true, false, true] initSys).st.fetches = 2 := by
  rfl

/-- C6 amended: fetches are at most one per *sequential* caller chain: in a
cold process, `n + 1` successive calls of `get_local_parquet` for one table
name perform exactly one remote fetch and every call returns the same local
path (no mutual exclusion protects concurrent callers). -/
theorem cache_sequential_single_fetch (t : String) (n : Nat) :
    seqCalls t (n + 1) initCState =
      (List.replicate (n + 1) (.ok (local_path t)),
       ⟨[(t, local_path t)], [local_path t], 1⟩) := by
  have hcached : ∀ m : Nat,
      seqCalls t m (⟨[(t, local_path t)], [local_path t], 1⟩ : CState) =
      (List.replicate m (.ok (local_path t)),
       ⟨[(t, local_path t)], [local_path t], 1⟩) := by
    intro m
    induction m with
    | zero => rfl
    | succ k ih =>
      unfold seqCalls
      rw [show get_local_parquet true
          (⟨[(t, local_path t)], [local_path t], 1⟩ : CState) t =
          (.ok (local_path t),
           ⟨[(t, local_path t)], [local_path t], 1⟩) by
        unfold get_local_parquet
        simp [assocFind]]
      dsimp only
      rw [ih]
      simp [List.replicate_succ]
  unfold seqCalls
  rw [show get_local_parquet true initCState t =
      (.ok (local_path t), ⟨[(t, local_path t)], [local_path t], 1⟩) from rfl]
  dsimp only
  rw [hcached n]
  simp [List.replicate_succ]

/-- C2 counterexample: the map-markers request carries a state parameter,
and for the non-`US`, non-empty state `"CA"` its compiled query gains only
the equality filter `state = 'CA'` — no facility join is added, because the
facility table is already the base table. -/
theorem state_clause_counterexample :
    ("CA" ≠ "US" ∧ "CA" ≠ "") ∧
    mapMarkersStateClause "CA" = ⟨false, some "CA"⟩ := by
  exact ⟨⟨by decide, by decide⟩, by rfl⟩

/-- C2 amended: the filter is active exactly for a state that is neither
the sentinel `US` nor empty.  When inactive, no handler adds a state filter
or a state-filtering facility join.  When active, the operations that
aggregate the sector fact table (sector totals, sector trend, bar, pie)
add exactly one facility join together with the `state = <value>` equality
filter, while the operations whose query already reads the facility table
(map markers, map overlay, export) add the equality filter alone, with no
join. -/
theorem state_clause_amended (state : String) :
    (stateActive state = true ↔ (state ≠ "US" ∧ state ≠ "")) ∧
    ((state = "US" ∨ state = "") →
      sectorFactStateClause state = ⟨false, none⟩ ∧
      mapMarkersStateClause state = ⟨false, none⟩ ∧
      mapOverlayStateClause state = ⟨false, none⟩ ∧
      exportStateClause state = ⟨false, none⟩) ∧
    (state ≠ "US" → state ≠ "" →
      sectorFactStateClause state = ⟨true, some state⟩ ∧
      mapMarkersStateClause state = ⟨false, some state⟩ ∧
      mapOverlayStateClause state = ⟨false, some state⟩ ∧
      exportStateClause state = ⟨false, some state⟩) := by
  have hiff : stateActive state = true ↔ (state ≠ "US" ∧ state ≠ "") := by
    simp [stateActive]
    tauto
  refine ⟨hiff, ?_, ?_⟩
  · intro h
    have hfalse : stateActive state = false := by
      rcases h with h | h <;> simp [stateActive, h]
    simp [sectorFactStateClause, mapMarkersStateClause, mapOverlayStateClause,
      exportStateClause, hfalse]
  · intro h1 h2
    have htrue : stateActive state = true := hiff.mpr ⟨h1, h2⟩
    simp [sectorFactStateClause, mapMarkersStateClause, mapOverlayStateClause,
      exportStateClause, htrue]

/-- Witness for C2 amended at `state = "CA"`. -/
theorem state_clause_amended_witness :
    ("CA" ≠ "US" ∧ "CA" ≠ "") ∧
    (sectorFactStateClause "CA" = ⟨true, some "CA"⟩ ∧
      mapMarkersStateClause "CA" = ⟨false, some "CA"⟩ ∧
      mapOverlayStateClause "CA" = ⟨false, some "CA"⟩ ∧
      exportStateClause "CA" = ⟨false, some "CA"⟩) :=
  ⟨⟨by decide, by decide⟩,
   (state_clause_amended "CA").2.2 (by decide) (by decide)⟩

/-- Membership in the export left join: every pair's facility comes from
the base list, and its partner is either `none` or a sector row matching
the `ON` conditions. -/
theorem mem_exportPairs {fb : List FacilityRow} {secs : List SectorRow}
    {ds : String} {p : FacilityRow × Option SectorRow}
    (hp : p ∈ exportPairs fb secs ds) :
    p.1 ∈ fb ∧ (p.2 = none ∨ ∃ s, p.2 = some s ∧ s ∈ secs ∧
      s.facility_id = p.1.facility_id ∧ s.year = p.1.year ∧
      s.sector_type = ds ∧ s.gas_name ≠ "Biogenic CO2") := by
  unfold exportPairs at hp
  rw [List.mem_flatMap] at hp
  obtain ⟨f, hf, hpf⟩ := hp
  split at hpf
  · next heq =>
    simp only [List.mem_singleton] at hpf
    subst hpf
    exact ⟨hf, Or.inl rfl⟩
  · next heq =>
    rw [List.mem_map] at hpf
    obtain ⟨s', hs', rfl⟩ := hpf
    rw [List.mem_filter, decide_eq_true_eq] at hs'
    exact ⟨hf, Or.inr ⟨s', rfl, hs'.1, hs'.2.1, hs'.2.2.1, hs'.2.2.2.1,
      hs'.2.2.2.2⟩⟩

/-- A facility with no matching sector row contributes the pair
`(f, none)` to the export left join. -/
theorem exportPairs_none_mem {fb : List FacilityRow} {secs : List SectorRow}
    {ds : String} {f : FacilityRow} (hf : f ∈ fb)
    (hnone : ∀ s ∈ secs, ¬(s.facility_id = f.facility_id ∧ s.year = f.year ∧
      s.sector_type = ds ∧ s.gas_name ≠ "Biogenic CO2")) :
    (f, (none : Option SectorRow)) ∈ exportPairs fb secs ds := by
  unfold exportPairs
  rw [List.mem_flatMap]
  refine ⟨f, hf, ?_⟩
  have hnil : secs.filter (fun s => decide (s.facility_id = f.facility_id ∧
      s.year = f.year ∧ s.sector_type = ds ∧ s.gas_name ≠ "Biogenic CO2")) = [] :=
    List.filter_eq_nil_iff.mpr (fun s hs => by
      simpa using hnone s hs)
  rw [hnil]
  exact List.mem_singleton.mpr rfl

/-- C10: every row of the all-years export has a strictly positive summed
total (zero-total facility-year groups, including facilities with no
matching emissions rows, are removed by `HAVING total_emissions > 0`),
whereas the single-year export keeps a qualifying facility with no matching
emissions rows, with an emissions value of 0. -/
theorem export_zero_groups (facs : List FacilityRow) (secs : List SectorRow)
    (state data_source : String) (reporting_year : Int) (f : FacilityRow)
    (hmem : f ∈ facs) (hyear : f.year = reporting_year)
    (hstate : stateActive state = true → f.state = state)
    (hnone : ∀ s ∈ secs, ¬(s.facility_id = f.facility_id ∧ s.year = f.year ∧
      s.sector_type = data_source ∧ s.gas_name ≠ "Biogenic CO2")) :
    (∀ g ∈ exportAllYearsRows facs secs state data_source, 0 < g.2) ∧
    (f, (0:ℚ)) ∈ exportSingleYearRows facs secs reporting_year state data_source := by
  constructor
  · intro g hg
    unfold exportAllYearsRows at hg
    have hg2 := List.take_subset _ _ hg
    rw [List.mem_insertionSort] at hg2
    rw [List.mem_filter, decide_eq_true_eq] at hg2
    exact hg2.2
  · unfold exportSingleYearRows
    rw [List.mem_insertionSort]
    set fbase₀ := facs.filter (fun f => decide (f.year = reporting_year)) with hfb0
    have hf0 : f ∈ fbase₀ := by
      rw [hfb0, List.mem_filter, decide_eq_true_eq]
      exact ⟨hmem, hyear⟩
    have hfbase : ∀ fb : List FacilityRow, f ∈ fb →
        (f, (0:ℚ)) ∈ exportGroups (exportPairs fb secs data_source) := by
      intro fb hffb
      have hpair : (f, (none : Option SectorRow)) ∈ exportPairs fb secs data_source :=
        exportPairs_none_mem hffb hnone
      unfold exportGroups
      rw [List.mem_map]
      refine ⟨f, ?_, ?_⟩
      · rw [List.mem_dedup, List.mem_map]
        exact ⟨(f, none), hpair, rfl⟩
      · have hzero : (((exportPairs fb secs data_source).filter
            (fun p => decide (p.1 = f))).map
            (fun p => (p.2.map (·.co2e_emission)).getD 0)).sum = 0 := by
          apply List.sum_eq_zero
          intro x hx
          rw [List.mem_map] at hx
          obtain ⟨p, hpmem, rfl⟩ := hx
          rw [List.mem_filter, decide_eq_true_eq] at hpmem
          obtain ⟨hpel, hpeq⟩ := hpmem
          rcases (mem_exportPairs hpel).2 with h2 | ⟨s, hs, hsmem, hcond⟩
          · rw [h2]; rfl
          · exact absurd (hpeq ▸ ⟨hcond.1, hcond.2.1, hcond.2.2.1, hcond.2.2.2⟩)
              (hnone s hsmem)
        rw [hzero]
    by_cases hact : stateActive state = true
    · rw [if_pos hact]
      exact hfbase _ (by
        rw [List.mem_filter, decide_eq_true_eq]
        exact ⟨hf0, hstate hact⟩)
    · rw [if_neg hact]
      exact hfbase _ hf0

/-- A concrete facility row (used by witnesses). -/
def facA : FacilityRow :=
  ⟨"1001", "Plant A", 2023, "TX", "Houston", "Harris", "77001", "1 Main St",
   "", some "29.7", some "-95.3", "ACME"⟩

/-- Witness for C10: one facility, no sector rows, no state filter. -/
theorem export_zero_groups_witness :
    (facA ∈ [facA] ∧ facA.year = 2023 ∧
      (stateActive "US" = true → facA.state = "US") ∧
      (∀ s ∈ ([] : List SectorRow), ¬(s.facility_id = facA.facility_id ∧
        s.year = facA.year ∧ s.sector_type = "E" ∧
        s.gas_name ≠ "Biogenic CO2"))) ∧
    (∀ g ∈ exportAllYearsRows [facA] [] "US" "E", 0 < g.2) ∧
    (facA, (0:ℚ)) ∈ exportSingleYearRows [facA] [] 2023 "US" "E" :=
  ⟨⟨List.mem_singleton.mpr rfl, rfl, by decide, by simp⟩,
   export_zero_groups [facA] [] "US" "E" 2023 facA (List.mem_singleton.mpr rfl)
     rfl (by decide) (by simp)⟩

/-- The fold inside `maxByYear` returns its seed or a list element. -/
theorem foldlMaxYear_mem : ∀ (fs : List FacilityRow) (f : FacilityRow),
    fs.foldl (fun best g => if best.year < g.year then g else best) f ∈ f :: fs
  | [], _ => List.mem_singleton.mpr rfl
  | a :: l, f => by
    have ih := foldlMaxYear_mem l (if f.year < a.year then a else f)
    rw [List.foldl_cons]
    rcases List.mem_cons.mp ih with h | h
    · rw [h]
      by_cases hfa : f.year < a.year
      · rw [if_pos hfa]
        exact List.mem_cons_of_mem _ (List.mem_cons_self _ _)
      · rw [if_neg hfa]
        exact List.mem_cons_self _ _
    · exact List.mem_cons_of_mem _ (List.mem_cons_of_mem _ h)

/-- The fold inside `maxByYear` dominates its seed's year and every list
element's year. -/
theorem foldlMaxYear_ge : ∀ (fs : List FacilityRow) (f : FacilityRow),
    f.year ≤ (fs.foldl (fun best g => if best.year < g.year then g else best) f).year ∧
    ∀ g ∈ fs,
      g.year ≤ (fs.foldl (fun best g => if best.year < g.year then g else best) f).year
  | [], _ => ⟨le_refl _, by simp⟩
  | a :: l, f => by
    have ih := foldlMaxYear_ge l (if f.year < a.year then a else f)
    rw [List.foldl_cons]
    have hseed : f.year ≤ (if f.year < a.year then a else f).year := by
      by_cases hfa : f.year < a.year
      · rw [if_pos hfa]; omega
      · rw [if_neg hfa]
    have ha : a.year ≤ (if f.year < a.year then a else f).year := by
      by_cases hfa : f.year < a.year
      · rw [if_pos hfa]
      · rw [if_neg hfa]; omega
    refine ⟨le_trans hseed ih.1, ?_⟩
    intro g hg
    rcases List.mem_cons.mp hg with h | h
    · subst h
      exact le_trans ha ih.1
    · exact ih.2 g h

/-- `maxByYear` returns a member whose year is maximal. -/
theorem maxByYear_spec {l : List FacilityRow} {f : FacilityRow}
    (h : maxByYear l = some f) : f ∈ l ∧ ∀ g ∈ l, g.year ≤ f.year := by
  cases l with
  | nil => simp [maxByYear] at h
  | cons a fs =>
    simp only [maxByYear, Option.some.injEq] at h
    subst h
    refine ⟨foldlMaxYear_mem fs a, ?_⟩
    intro g hg
    rcases List.mem_cons.mp hg with h | h
    · subst h
      exact (foldlMaxYear_ge fs g).1
    · exact (foldlMaxYear_ge fs a).2 g h

/-- `maxByYear` is `none` exactly on the empty list. -/
theorem maxByYear_eq_none {l : List FacilityRow} :
    maxByYear l = none ↔ l = [] := by
  cases l <;> simp [maxByYear]

/-- `hoverFacility` finds nothing exactly when the facility id appears in
no year at all. -/
theorem hoverFacility_eq_none (facs : List FacilityRow) (fid : String)
    (year : Int) :
    hoverFacility facs fid year = none ↔ ∀ f ∈ facs, f.facility_id ≠ fid := by
  unfold hoverFacility
  constructor
  · intro h
    rcases hc : (facs.filter
        (fun f => decide (f.facility_id = fid ∧ f.year = year))).head? with _ | f
    · rw [hc] at h
      simp only at h
      have h2 := maxByYear_eq_none.mp h
      intro f hf hfe
      have := List.filter_eq_nil_iff.mp h2 f hf
      simp [hfe] at this
    · rw [hc] at h
      simp at h
  · intro hall
    have h1 : facs.filter
        (fun f => decide (f.facility_id = fid ∧ f.year = year)) = [] :=
      List.filter_eq_nil_iff.mpr (fun f hf => by simp [hall f hf])
    have h2 : facs.filter (fun f => decide (f.facility_id = fid)) = [] :=
      List.filter_eq_nil_iff.mpr (fun f hf => by simp [hall f hf])
    rw [h1, h2]
    simp [maxByYear]

/-- C9: when no facility row exists for `(fid, year)` but the id appears in
some other year, the hover handler answers 200 with a descriptor row of
maximal year for that id (emissions still filtered to the requested year);
the 404 outcome occurs exactly when the id appears in no year at all. -/
theorem facility_hover_fallback (facs : List FacilityRow)
    (secs : List SectorRow) (year : Int) (fid : String) (hfid : fid ≠ "") :
    ((∀ f ∈ facs, ¬(f.facility_id = fid ∧ f.year = year)) →
      (∃ f ∈ facs, f.facility_id = fid) →
      ∃ f, handle_facility_hover facs secs year (some fid) =
          .ok f (gasBreakdown secs fid year) ∧
        f ∈ facs ∧ f.facility_id = fid ∧
        ∀ g ∈ facs, g.facility_id = fid → g.year ≤ f.year) ∧
    (handle_facility_hover facs secs year (some fid) = .notFound ↔
      ∀ f ∈ facs, f.facility_id ≠ fid) := by
  have hh : handle_facility_hover facs secs year (some fid) =
      (match hoverFacility facs fid year with
        | none => .notFound
        | some f => .ok f (gasBreakdown secs fid year)) := by
    unfold handle_facility_hover
    dsimp only
    rw [if_neg hfid]
  constructor
  · intro h1 h2
    have hnil : facs.filter
        (fun f => decide (f.facility_id = fid ∧ f.year = year)) = [] :=
      List.filter_eq_nil_iff.mpr (fun f hf => by simpa using h1 f hf)
    obtain ⟨f, hf⟩ : ∃ f, maxByYear
        (facs.filter (fun f => decide (f.facility_id = fid))) = some f := by
      obtain ⟨f0, hf0, hfe0⟩ := h2
      rcases hlist : facs.filter (fun f => decide (f.facility_id = fid)) with _ | ⟨a, l⟩
      · have := List.filter_eq_nil_iff.mp hlist f0 hf0
        simp [hfe0] at this
      · rw [hlist]
        exact ⟨_, rfl⟩
    have hhf : hoverFacility facs fid year = some f := by
      unfold hoverFacility
      rw [hnil]
      simpa using hf
    obtain ⟨hfmem, hfmax⟩ := maxByYear_spec hf
    rw [List.mem_filter, decide_eq_true_eq] at hfmem
    refine ⟨f, ?_, hfmem.1, hfmem.2, ?_⟩
    · rw [hh, hhf]
    · intro g hg hgid
      exact hfmax g (by rw [List.mem_filter, decide_eq_true_eq]; exact ⟨hg, hgid⟩)
  · rw [hh]
    rcases hcase : hoverFacility facs fid year with _ | f'
    · simp only
      exact ⟨fun _ => (hoverFacility_eq_none facs fid year).mp hcase,
        fun _ => trivial⟩
    · simp only
      constructor
      · intro h
        exact absurd h (by simp)
      · intro hall
        have := (hoverFacility_eq_none facs fid year).mpr hall
        rw [hcase] at this
        exact absurd this (by simp)

/-- Another concrete facility row, reported only for year 2022. -/
def facB : FacilityRow :=
  ⟨"1001", "Plant B", 2022, "TX", "Houston", "Harris", "77001", "1 Main St",
   "", some "29.7", some "-95.3", "ACME"⟩

/-- Witness for C9: facility `1001` exists only for 2022; hovering year
2023 answers 200 with the 2022 descriptor. -/
theorem facility_hover_fallback_witness :
    (("1001" : String) ≠ "" ∧
      (∀ f ∈ [facB], ¬(f.facility_id = "1001" ∧ f.year = 2023)) ∧
      (∃ f ∈ [facB], f.facility_id = "1001")) ∧
    (∃ f, handle_facility_hover [facB] [] 2023 (some "1001") =
        .ok f (gasBreakdown [] "1001" 2023) ∧
      f ∈ [facB] ∧ f.facility_id = "1001" ∧
      ∀ g ∈ [facB], g.facility_id = "1001" → g.year ≤ f.year) :=
  ⟨⟨by decide, by decide, by decide⟩,
   (facility_hover_fallback [facB] [] 2023 "1001" (by decide)).1
     (by decide) (by decide)⟩

/-- The fixed `gas_name != 'Biogenic CO2'` exclusion as a standalone row
filter: removing every Biogenic CO2 row from the sector fact table. -/
def dropBio (secs : List SectorRow) : List SectorRow :=
  secs.filter (fun s => s.gas_name ≠ "Biogenic CO2")

/-- Removing Biogenic CO2 rows first does not change a filter that itself
rejects every Biogenic CO2 row. -/
theorem filter_dropBio (p : SectorRow → Bool)
    (h : ∀ s : SectorRow, s.gas_name = "Biogenic CO2" → p s = false) :
    ∀ secs : List SectorRow, (dropBio secs).filter p = secs.filter p := by
  intro secs
  induction secs with
  | nil => rfl
  | cons a l ih =>
    by_cases hb : a.gas_name = "Biogenic CO2"
    · rw [show dropBio (a :: l) = dropBio l by
        simp [dropBio, List.filter_cons, hb]]
      rw [ih, List.filter_cons, h a hb]
      simp
    · rw [show dropBio (a :: l) = a :: dropBio l by
        simp [dropBio, List.filter_cons, hb]]
      rw [List.filter_cons, List.filter_cons]
      cases hpa : p a <;> simp [ih]

/-- C1 amended: Biogenic CO2 rows never contribute to any summed total in
the seven emissions aggregations that carry the fixed
`gas_name != 'Biogenic CO2'` exclusion — sector totals, list sectors,
sector trend, bar, pie, map overlay, and both export modes: each result is
unchanged when every Biogenic CO2 row is removed from the sector fact
table.  (The facility-hover per-gas breakdown is exempt: it carries no such
exclusion, see the counterexample.) -/
theorem biogenic_never_contributes (secs : List SectorRow)
    (facs : List FacilityRow) (dims : List DimRow) (reporting_year : Int)
    (state data_source sector_id sector1 : String) (level : Option String) :
    handle_sectors_total_emissions (dropBio secs) facs dims reporting_year state =
      handle_sectors_total_emissions secs facs dims reporting_year state ∧
    handle_list_sectors (dropBio secs) dims reporting_year =
      handle_list_sectors secs dims reporting_year ∧
    sectorTrendSeries (dropBio secs) facs dims sector_id state =
      sectorTrendSeries secs facs dims sector_id state ∧
    handle_bar_sector (dropBio secs) facs dims reporting_year state =
      handle_bar_sector secs facs dims reporting_year state ∧
    handle_pie_sectors_emissions (dropBio secs) facs dims reporting_year state
        level sector1 =
      handle_pie_sectors_emissions secs facs dims reporting_year state
        level sector1 ∧
    mapOverlayRows facs (dropBio secs) reporting_year state data_source =
      mapOverlayRows facs secs reporting_year state data_source ∧
    exportAllYearsRows facs (dropBio secs) state data_source =
      exportAllYearsRows facs secs state data_source ∧
    exportSingleYearRows facs (dropBio secs) reporting_year state data_source =
      exportSingleYearRows facs secs reporting_year state data_source := by
  have hbase : (dropBio secs).filter (fun e => e.year = reporting_year ∧
        e.sector_type = "E" ∧ e.gas_name ≠ "Biogenic CO2") =
      secs.filter (fun e => e.year = reporting_year ∧
        e.sector_type = "E" ∧ e.gas_name ≠ "Biogenic CO2") :=
    filter_dropBio _ (fun s hs => by simp [hs]) secs
  have htrend : (dropBio secs).filter (fun e =>
        e.sector_type = "E" ∧ e.gas_name ≠ "Biogenic CO2") =
      secs.filter (fun e => e.sector_type = "E" ∧ e.gas_name ≠ "Biogenic CO2") :=
    filter_dropBio _ (fun s hs => by simp [hs]) secs
  have hoverlayPairs : facs.flatMap (fun f =>
        ((dropBio secs).filter (fun s =>
          s.facility_id = f.facility_id ∧ s.year = f.year ∧
          s.sector_type = data_source ∧ s.gas_name ≠ "Biogenic CO2")).map
          (fun s => (f, s))) =
      facs.flatMap (fun f =>
        (secs.filter (fun s =>
          s.facility_id = f.facility_id ∧ s.year = f.year ∧
          s.sector_type = data_source ∧ s.gas_name ≠ "Biogenic CO2")).map
          (fun s => (f, s))) := by
    congr 1
    funext f
    rw [filter_dropBio _ (fun s hs => by simp [hs]) secs]
  have hexportPairs : ∀ fb : List FacilityRow,
      exportPairs fb (dropBio secs) data_source =
        exportPairs fb secs data_source := by
    intro fb
    unfold exportPairs
    congr 1
    funext f
    rw [filter_dropBio _ (fun s hs => by simp [hs]) secs]
  refine ⟨?_, ?_, ?_, ?_, ?_, ?_, ?_, ?_⟩
  · simp only [handle_sectors_total_emissions, sectorsTotalRows]
    rw [hbase]
  · simp only [handle_list_sectors, listSectorsRows]
    rw [hbase]
  · simp only [sectorTrendSeries]
    rw [htrend]
  · simp only [handle_bar_sector]
    rw [hbase]
  · simp only [handle_pie_sectors_emissions]
    rw [hbase]
  · simp only [mapOverlayRows]
    rw [hoverlayPairs]
  · simp only [exportAllYearsRows]
    rw [hexportPairs]
  · simp only [exportSingleYearRows]
    rw [hexportPairs]

/-- A Biogenic CO2 sector row for facility 1001, year 2023. -/
def bioRow : SectorRow := ⟨"1001", 2023, "Power Plants", "E", "Biogenic CO2", 5⟩

/-- C1 counterexample: the facility-hover per-gas breakdown applies no
Biogenic CO2 exclusion — a Biogenic CO2 row contributes its full quantity
to a summed per-gas total, so with that row present the breakdown holds a
`Biogenic CO2` entry that vanishes once the row is removed. -/
theorem biogenic_hover_counterexample :
    gasBreakdown [bioRow] "1001" 2023 = [("Biogenic CO2", 5)] ∧
    gasBreakdown (dropBio [bioRow]) "1001" 2023 = [] := by
  constructor
  · have hpy : pyRound (5:ℚ) = 5 := by
      have hfl : ⌊(5:ℚ)⌋ = 5 := by norm_num
      unfold pyRound
      rw [hfl]
      norm_num
    unfold gasBreakdown
    rw [show [bioRow].filter (fun s =>
        s.facility_id = "1001" ∧ s.year = 2023) = [bioRow] from rfl]
    simp [bioRow, hpy]
  · rfl

end Flight
